import Mathlib

/-!
Verification of the ultratube selection-and-orchestration engine.

Shallow embedding, in Lean 4, of the core logic of the `ultratube` YouTube
downloader: the metadata cache and audio-track resolution
(`src/metadata_service.py`), the format-selector construction and download
orchestration (`src/download_service.py`), the post-processing operations
(`src/file_service.py`), and the data classes (`src/models.py`).

Conventions of the embedding:
* Python `dict.get(key)` results are `Option` values; `dict.get(key, d)`
  is `(... ).getD d`.
* Python truthiness of an optional string (`if x:` where `x` is `None` or a
  string) is `x.getD "" ≠ ""`.
* External effects (the `yt_dlp` extraction call, the filesystem, the
  `ffmpeg` subprocess) are passed in as explicit parameters: an extraction
  outcome is `Except Unit _` (`.error` models a raised `DownloadError`),
  the filesystem is a predicate `String → Bool`, and a subprocess outcome
  is a predicate on the command line.
* Clock readings (`time.time()`) are integers; audio bitrates (`abr`,
  floats in the source) are natural numbers.  Neither choice affects any
  property proved below.
-/

namespace Ultratube

/-! Section: Host-language helpers

String primitives are implemented over `String.data` (lists of characters)
rather than through the byte-position-based functions of the standard
library, so that every definition evaluates inside the kernel; each mirrors
the corresponding Python string operation. -/

/-- Whether the first character list is an initial segment of the second. -/
def listIsPref : List Char → List Char → Bool
  | [], _ => true
  | _ :: _, [] => false
  | a :: as, b :: bs => a == b && listIsPref as bs

/-- Locate the first occurrence of `sep` in a character list, returning
the text before it and the text after it. -/
def findSplit (sep : List Char) : List Char → Option (List Char × List Char)
  | [] => none
  | c :: cs =>
    if listIsPref sep (c :: cs) then some ([], (c :: cs).drop sep.length)
    else match findSplit sep cs with
      | some (pre, post) => some (c :: pre, post)
      | none => none

/-- Fueled splitting loop (the fuel `s.length + 1` always suffices for a
nonempty separator). -/
def splitCharsFuel (sep : List Char) : Nat → List Char → List (List Char)
  | 0, s => [s]
  | fuel + 1, s =>
    match findSplit sep s with
    | none => [s]
    | some (pre, post) => pre :: splitCharsFuel sep fuel post

/-- Python `s.split(sep)` for a nonempty separator. -/
def strSplitOn (s sep : String) : List String :=
  (splitCharsFuel sep.data (s.data.length + 1) s.data).map String.mk

/-- Python `s.endswith(suf)`. -/
def strEndsWith (s suf : String) : Bool :=
  s.data.reverse.take suf.data.length == suf.data.reverse

/-- Python `s.startswith(pre)`. -/
def strStartsWith (s pre : String) : Bool :=
  listIsPref pre.data s.data

/-- Python `s.lower()` (ASCII case folding; exact for every string this
development evaluates). -/
def strToLower (s : String) : String :=
  String.mk (s.data.map Char.toLower)

/-- Join a list of strings with a separator. -/
def strIntercalate (sep : String) : List String → String
  | [] => ""
  | [s] => s
  | s :: rest => s ++ sep ++ strIntercalate sep rest

/-- Substring test: Python's `pat in s` for a nonempty pattern `pat`. -/
def strContains (s pat : String) : Bool :=
  (strSplitOn s pat).length ≥ 2

/-- Python truthiness of an optional string: `None` and `""` are falsy. -/
def pyTruthy (o : Option String) : Bool :=
  o.getD "" ≠ ""

/-- Python `str.isdigit`: true iff the string is nonempty and every
character is a digit (restricted here to ASCII digits, the only characters
quality-tier strings contain). -/
def pyIsDigitStr (s : String) : Bool :=
  s ≠ "" && s.data.all Char.isDigit

/-- Python's Unicode-aware `str.isalnum` on a single character.  ASCII
follows `Char.isAlphanum`; on the Latin-1 supplement (U+0080–U+00FF) the
Unicode alphanumeric property is recorded exactly (ª ² ³ µ ¹ º ¼ ½ ¾ and
the letters U+00C0–U+00FF except × and ÷).  Codepoints above U+00FF are
treated as non-alphanumeric; this under-approximates Python, which also
accepts further Unicode letters and numbers, but is exact on every
character evaluated in this development (the only such codepoint is the
em dash U+2014, which Python also rejects). -/
def pyIsAlnum (c : Char) : Bool :=
  let n := c.toNat
  if n ≤ 0x7F then c.isAlphanum
  else if n ≤ 0xFF then
    n = 0xAA || n = 0xB2 || n = 0xB3 || n = 0xB5 || n = 0xB9 || n = 0xBA ||
    (0xBC ≤ n && n ≤ 0xBE) || (0xC0 ≤ n && n ≤ 0xFF && n ≠ 0xD7 && n ≠ 0xF7)
  else false

/-- POSIX `os.path.join` for the two-argument uses in the source. -/
def os_path_join (d f : String) : String :=
  if d = "" then f
  else if strStartsWith f "/" then f
  else if strEndsWith d "/" then d ++ f
  else d ++ "/" ++ f

/-- Strip trailing slashes unless the string is entirely slashes
(the guard used inside `posixpath.dirname`). -/
def rstripSlash (s : String) : String :=
  let t := s.data.reverse.dropWhile (· = '/')
  if t = [] then s else String.mk t.reverse

/-- POSIX `os.path.dirname`. -/
def os_path_dirname (p : String) : String :=
  let parts := strSplitOn p "/"
  if parts.length ≤ 1 then ""
  else rstripSlash (strIntercalate "/" parts.dropLast ++ "/")

/-- POSIX `os.path.basename`. -/
def os_path_basename (p : String) : String :=
  (strSplitOn p "/").getLastD ""

/-- POSIX `os.path.splitext` applied to a plain file name (no slash):
split at the last dot, except that a name consisting of leading dots only
before that dot is not split. -/
def splitext (name : String) : String × String :=
  let cs := name.data
  if cs.contains '.' then
    let after := cs.reverse.takeWhile (· ≠ '.')
    let pre := (cs.reverse.drop (after.length + 1)).reverse
    if pre.any (· ≠ '.') then
      (String.mk pre, String.mk ('.' :: after.reverse))
    else (name, "")
  else (name, "")

/-! Section: Data model (`src/models.py`) -/

/-- A raw yt-dlp format record, holding the fields the source reads
(`format.get(...)`). -/
structure Fmt where
  vcodec : Option String := none
  acodec : Option String := none
  resolution : Option String := none
  format_id : Option String := none
  format_note : Option String := none
  language : Option String := none
  ext : Option String := none
  protocol : Option String := none
  abr : Option Nat := none
  deriving DecidableEq, Repr

/-- A raw yt-dlp subtitle record (the fields read by
`MetadataService.get_available_subtitles`). -/
structure SubRaw where
  name : Option String := none
  format_id : Option String := none
  deriving DecidableEq, Repr

/-- Embedding of `models.AudioTrack`. -/
structure AudioTrack where
  language : String
  format_id : Option String
  description : String
  codec : Option String := none
  bitrate : Option Nat := none
  deriving DecidableEq, Repr

/-- Embedding of `models.VideoInfo`. -/
structure VideoInfo where
  id : String
  title : String
  formats : List Fmt := []
  subtitles : List (String × List SubRaw) := []
  duration : Option Int := none
  thumbnail_url : Option String := none
  description : Option String := none
  deriving DecidableEq, Repr

/-- Embedding of `models.DownloadOptions`. -/
structure DownloadOptions where
  output_directory : String
  include_metadata : Bool := true
  include_thumbnail : Bool := true
  include_chapters : Bool := true
  audio_format_id : Option String := none
  subtitle_ids : List String := []
  deriving DecidableEq, Repr

/-- Embedding of `models.ProcessOptions`. -/
structure ProcessOptions where
  keep_original : Bool := false
  output_format : String := "mp4"
  quality_level : Option Int := none
  deriving DecidableEq, Repr

/-- The filename sanitization used by `VideoInfo.filename_safe_title`
(`src/models.py` lines 19–22) and inline in `DownloadService`
(`src/download_service.py` lines 77, 165, 221):
`"".join(c if c.isalnum() or c in " -_." else "_" for c in title)`. -/
def filename_safe_title (title : String) : String :=
  String.mk (title.data.map fun c =>
    if pyIsAlnum c || c = ' ' || c = '-' || c = '_' || c = '.' then c else '_')

/-- The sanitization rule as the spec words it: every character outside
the class `[A-Za-z0-9 \-_.]` becomes an underscore, characters inside the
class are kept.  (`Char.isAlphanum` is exactly `[A-Za-z0-9]`.)  Used to
compare the spec's rule with the source's `filename_safe_title`. -/
def sanitize_class_rule (title : String) : String :=
  String.mk (title.data.map fun c =>
    if c.isAlphanum || c = ' ' || c = '-' || c = '_' || c = '.' then c else '_')

/-! Section: Post-processing (`src/file_service.py`) -/

/-- Embedding of `FileService.merge_subtitles` (`src/file_service.py` lines 14–56).
`run_ok` models the `ffmpeg` subprocess: it receives the command line and
reports whether the invocation succeeded (a `False` models the
`RuntimeError` raised by `_run_ffmpeg_command`, caught by the broad
`except`).  The second component records the command handed to `ffmpeg`,
`none` when no external invocation happens. -/
def merge_subtitles (media_file : String) (subtitle_files : List String)
    (output_file : String) (run_ok : List String → Bool) :
    String × Option (List String) :=
  if subtitle_files = [] then (media_file, none)
  else
    let subtitle_args := (subtitle_files.map fun s => ["-i", s]).flatten
    let command := ["ffmpeg", "-i", media_file] ++ subtitle_args ++
      ["-c:v", "copy", "-c:a", "copy", "-c:s", "mov_text", output_file]
    if run_ok command then (output_file, some command)
    else (media_file, some command)

/-- Embedding of `FileService.process_download` (`src/file_service.py` lines 58–110).
`fs_exists` models `os.path.exists`; `run_ok` models the `ffmpeg`
subprocess as in `merge_subtitles`.  Result: the returned path, the
command handed to `ffmpeg` (`none` when no external invocation happens)
and the list of files removed by `os.remove`. -/
def process_download (file_path : String) (options : ProcessOptions)
    (fs_exists : String → Bool) (run_ok : List String → Bool) :
    String × Option (List String) × List String :=
  if fs_exists file_path = false then (file_path, none, [])
  else
    let directory := os_path_dirname file_path
    let filename := os_path_basename file_path
    let base_name := (splitext filename).1
    let output_file :=
      os_path_join directory (base_name ++ "_processed." ++ options.output_format)
    let command := ["ffmpeg", "-i", file_path, "-c:v", "copy", "-c:a", "copy"] ++
      (if options.quality_level.getD 0 ≠ 0 then
        ["-crf", toString (options.quality_level.getD 0)] else []) ++
      [output_file]
    if run_ok command then
      if options.keep_original = false then (output_file, some command, [file_path])
      else (output_file, some command, [])
    else (file_path, some command, [])

/-! Section: Metadata service (`src/metadata_service.py`) -/

/-- The raw yt-dlp info record as extracted and cached by
`MetadataService` (`self._video_info_cache[url]`), holding the fields
`_create_video_info` reads. -/
structure RawInfo where
  id : Option String := none
  title : Option String := none
  formats : List Fmt := []
  subtitles : List (String × List SubRaw) := []
  duration : Option Int := none
  thumbnail : Option String := none
  description : Option String := none
  deriving DecidableEq, Repr

/-- Embedding of `MetadataService._create_video_info` (`src/metadata_service.py` lines
176–194). -/
def create_video_info (raw_info : RawInfo) : VideoInfo where
  id := raw_info.id.getD ""
  title := raw_info.title.getD "Untitled"
  formats := raw_info.formats
  subtitles := raw_info.subtitles
  duration := raw_info.duration
  thumbnail_url := raw_info.thumbnail
  description := raw_info.description

/-- Association-list lookup, modelling Python `dict` access
(`url in d`, `d[url]`, `d.get(url, default)` via `.getD`). -/
def assocGet {α : Type} (l : List (String × α)) (k : String) : Option α :=
  match l with
  | [] => none
  | (k0, v) :: rest => if k0 = k then some v else assocGet rest k

/-- Association-list store, modelling Python `d[url] = v`. -/
def assocSet {α : Type} (l : List (String × α)) (k : String) (v : α) :
    List (String × α) :=
  match l with
  | [] => [(k, v)]
  | (k0, v0) :: rest =>
    if k0 = k then (k, v) :: rest else (k0, v0) :: assocSet rest k v

/-- The mutable state of `MetadataService` (`src/metadata_service.py`
lines 16–25): the per-URL raw-info cache, the per-URL fetch timestamps and
the TTL.  Clock readings are integers. -/
structure MetadataServiceState where
  video_info_cache : List (String × RawInfo) := []
  cache_timestamps : List (String × Int) := []
  cache_ttl : Int := 3600
  deriving DecidableEq, Repr

/-- Embedding of `MetadataService.get_video_info` (`src/metadata_service.py` lines
27–52).  `extract` models `_extract_video_info` (the yt-dlp call);
`current_time` is the `time.time()` reading taken at the start of the
call.  Result: the returned `VideoInfo`, the state after the call, and the
number of extraction calls performed during this lookup. -/
def get_video_info (s : MetadataServiceState) (extract : String → RawInfo)
    (current_time : Int) (url : String) :
    VideoInfo × MetadataServiceState × Nat :=
  let hit : Option RawInfo :=
    match assocGet s.video_info_cache url with
    | some info =>
      let cache_time := (assocGet s.cache_timestamps url).getD 0
      if current_time - cache_time < s.cache_ttl then some info else none
    | none => none
  match hit with
  | some info => (create_video_info info, s, 0)
  | none =>
    let info := extract url
    (create_video_info info,
      { s with
        video_info_cache := assocSet s.video_info_cache url info
        cache_timestamps := assocSet s.cache_timestamps url current_time },
      1)

/-- The audio-candidate test of `MetadataService.get_audio_tracks`
(`src/metadata_service.py` lines 70–72):
`format.get('vcodec') == 'none' and format.get('acodec') != 'none'
or format.get('resolution') == 'audio only'`
(Python `and` binds tighter than `or`). -/
def is_audio_candidate (f : Fmt) : Bool :=
  (f.vcodec == some "none" && f.acodec != some "none") ||
    f.resolution == some "audio only"

/-- The audio-candidate test as the spec words it: the format "reports no
video codec and a non-null audio codec".  Rendered strictly: the `vcodec`
field is the marker string `"none"` and the `acodec` field is neither
absent (null) nor the marker string `"none"` (both readings of "non-null"
conjoined; the counterexample below is independent of this choice, since
it differs on the video-codec side). -/
def spec_audio_candidate (f : Fmt) : Prop :=
  f.vcodec = some "none" ∧ f.acodec ≠ none ∧ f.acodec ≠ some "none"

/-- The language-label derivation of `MetadataService.get_audio_tracks`
(`src/metadata_service.py` lines 76–87): the text before the first
`" - "` separator of the format note when the note is non-empty, else the
format's `language` field when truthy, else `"default"`.  The empty string
stands for Python's `None` in the intermediate steps (both are falsy and
the final result is never empty). -/
def derive_language (f : Fmt) : String :=
  let format_note := f.format_note.getD ""
  let ln : String :=
    if format_note ≠ "" then
      if strContains format_note " - " then
        (strSplitOn format_note " - ").headD ""
      else format_note
    else ""
  let ln := if ln = "" && pyTruthy f.language then f.language.getD "" else ln
  if ln = "" then (if pyTruthy f.language then f.language.getD "" else "default")
  else ln

/-- The `AudioTrack` constructed from an accepted format by
`MetadataService.get_audio_tracks` (`src/metadata_service.py` lines
93–116): description text embedding language, container extension,
non-standard protocol and bitrate, plus a `[dubbed]` marker when the
format note contains that word case-insensitively. -/
def mk_audio_track (f : Fmt) : AudioTrack :=
  let language_name := derive_language f
  let format_note := f.format_note.getD ""
  let audio_ext := f.ext.getD ""
  let protocol := f.protocol.getD ""
  let d := language_name ++ " (" ++ audio_ext
  let d := if protocol ≠ "" && !(protocol == "http" || protocol == "https") then
      d ++ ", " ++ protocol
    else d
  let d := if f.abr.getD 0 ≠ 0 then d ++ ", " ++ toString (f.abr.getD 0) ++ "k" else d
  let d := d ++ ")"
  let d := if strContains (strToLower format_note) "dubbed" then d ++ " [dubbed]" else d
  { language := language_name
    format_id := f.format_id
    description := d
    codec := f.acodec
    bitrate := f.abr }

/-- The scan loop of `MetadataService.get_audio_tracks`
(`src/metadata_service.py` lines 66–120), carrying the
`processed_languages` set of already-accepted lowercase labels. -/
def get_audio_tracks_loop : List Fmt → List String → List AudioTrack
  | [], _ => []
  | f :: rest, processed =>
    if is_audio_candidate f then
      let language_name := derive_language f
      if strToLower language_name ∈ processed then
        get_audio_tracks_loop rest processed
      else
        mk_audio_track f ::
          get_audio_tracks_loop rest (strToLower language_name :: processed)
    else get_audio_tracks_loop rest processed

/-- Embedding of `MetadataService.get_audio_tracks` applied to the format list of the
metadata (the loop starts with an empty `processed_languages` set). -/
def get_audio_tracks (formats : List Fmt) : List AudioTrack :=
  get_audio_tracks_loop formats []

/-! Section: Download orchestration (`src/download_service.py`) -/

/-- The quality-tier → video-only-selector map of
`DownloadService.download_video` (`src/download_service.py` lines 114–122),
including the `.get` default for unrecognized tiers. -/
def format_map_get (quality : String) : String :=
  if quality = "highest" then "bestvideo[ext=mp4]"
  else if quality = "1080p" then "bestvideo[height<=1080][ext=mp4]"
  else if quality = "720p" then "bestvideo[height<=720][ext=mp4]"
  else if quality = "480p" then "bestvideo[height<=480][ext=mp4]"
  else if quality = "360p" then "bestvideo[height<=360][ext=mp4]"
  else if quality = "240p" then "bestvideo[height<=240][ext=mp4]"
  else "bestvideo[ext=mp4]"

/-- The fallback height of `DownloadService.download_video`
(`src/download_service.py` line 131):
`quality[:-1] if quality.endswith('p') and quality[:-1].isdigit() else '1080'`. -/
def fallback_height (quality : String) : String :=
  if strEndsWith quality "p" && pyIsDigitStr (String.mk quality.data.dropLast) then
    String.mk quality.data.dropLast
  else "1080"

/-- The format-selector construction of `DownloadService.download_video`
(`src/download_service.py` lines 113–132): video-only selector for the
tier, plus the explicit audio format id when truthy (else
`bestaudio[ext=m4a]`), then the `/`-joined fallbacks. -/
def build_selector (quality : String) (audio_format_id : Option String) : String :=
  let fs := format_map_get quality
  let fs := if pyTruthy audio_format_id then fs ++ "+" ++ audio_format_id.getD ""
    else fs ++ "+bestaudio[ext=m4a]"
  fs ++ "/best[height<=" ++ fallback_height quality ++ "][ext=mp4]/best"

/-- The slice of a raw yt-dlp info record read by the download paths:
`info.get('title', default)`. -/
structure Info where
  title : Option String := none
  deriving DecidableEq, Repr

/-- The expected per-language subtitle path construction of
`DownloadService.download_subtitles` (`src/download_service.py` lines
222–226): `{output_dir}/{safe_title}.{lang}.vtt`. -/
def expected_subtitle_path (output_dir safe_title lang : String) : String :=
  os_path_join output_dir safe_title ++ "." ++ lang ++ ".vtt"

/-- The collection loop of `DownloadService.download_subtitles`
(`src/download_service.py` lines 225–228): expected per-language paths are
existence-checked in request order and only existing ones appended. -/
def collect_subtitles (output_dir safe_title : String)
    (fs_exists : String → Bool) : List String → List String
  | [] => []
  | lang :: rest =>
    let sub_path := expected_subtitle_path output_dir safe_title lang
    if fs_exists sub_path then
      sub_path :: collect_subtitles output_dir safe_title fs_exists rest
    else collect_subtitles output_dir safe_title fs_exists rest

/-- Embedding of `DownloadService.download_subtitles` (`src/download_service.py` lines
181–234).  `extract` is the outcome of the single `ydl.extract_info` call:
`.error ()` models a raised exception, `.ok none` a `None` info record
(whose attribute access then raises, caught by the same broad `except`,
leaving the collected list empty), `.ok (some i)` a returned record.
`fs_exists` models `os.path.exists`. -/
def download_subtitles_model (subtitle_ids : List String) (output_dir : String)
    (extract : Except Unit (Option Info)) (fs_exists : String → Bool) :
    List String :=
  if subtitle_ids = [] then []
  else
    match extract with
    | .error _ => []
    | .ok none => []
    | .ok (some info) =>
      let video_title := info.title.getD "video"
      let safe_title := filename_safe_title video_title
      collect_subtitles output_dir safe_title fs_exists subtitle_ids

/-- Embedding of `DownloadService.download_video` (`src/download_service.py` lines
93–179), observed through its return value and whether subtitle
acquisition ran.  `extract` is the outcome of `ydl.extract_info`
(`.error ()` models a raised `DownloadError`, caught at lines 169–171 with
an early `return None, []`); `subtitle_result` stands for the value the
`download_subtitles` call would return.  Result: the `(file path, subtitle
files)` pair together with a flag recording whether `download_subtitles`
was invoked. -/
def download_video_model (quality : String) (options : DownloadOptions)
    (extract : Except Unit (Option Info)) (subtitle_result : List String) :
    (Option String × List String) × Bool :=
  let _format_selector := build_selector quality options.audio_format_id
  match extract with
  | .error _ => ((none, []), false)
  | .ok info =>
    let video_file_path := match info with
      | some i =>
        some (os_path_join options.output_directory
          (filename_safe_title (i.title.getD "video") ++ ".mp4"))
      | none => none
    if options.subtitle_ids = [] then ((video_file_path, []), false)
    else ((video_file_path, subtitle_result), true)

/-- Embedding of `DownloadService.download_audio` (`src/download_service.py` lines
26–91), observed the same way as `download_video_model`; the derived file
name ends in `.mp3` and the title default is `'audio'`. -/
def download_audio_model (options : DownloadOptions)
    (extract : Except Unit (Option Info)) (subtitle_result : List String) :
    (Option String × List String) × Bool :=
  match extract with
  | .error _ => ((none, []), false)
  | .ok info =>
    let audio_file_path := match info with
      | some i =>
        some (os_path_join options.output_directory
          (filename_safe_title (i.title.getD "audio") ++ ".mp3"))
      | none => none
    if options.subtitle_ids = [] then ((audio_file_path, []), false)
    else ((audio_file_path, subtitle_result), true)

/-! Section: Concrete records used in counterexamples and witnesses -/

/-- A concrete raw info record. -/
def rawSample : RawInfo :=
  { title := some "Sample Clip", id := some "abc123" }

/-- An audio-only format whose note carries an `" - "`-separated language
label. -/
def fmtEnglish : Fmt :=
  { vcodec := some "none", acodec := some "mp4a.40.2",
    format_note := some "English - original", format_id := some "140-0",
    ext := some "m4a", abr := some 129 }

/-- A later audio-only format whose derived label duplicates
`fmtEnglish`'s label up to case. -/
def fmtEnglishDup : Fmt :=
  { vcodec := some "none", acodec := some "mp4a.40.2",
    format_note := some "english", format_id := some "140-1",
    ext := some "m4a", abr := some 48 }

/-- A format reporting a video codec yet flagged `resolution = "audio
only"`: the source accepts it as an audio-track candidate, the spec's
wording rejects it. -/
def fmtOddCandidate : Fmt :=
  { vcodec := some "h264", acodec := some "mp4a.40.2",
    resolution := some "audio only", format_id := some "18" }

end Ultratube

namespace Ultratube

/-! Section: Theorems for the post-processing claims -/

/-- C9: for every media file path and output path, `merge_subtitles` with
an empty subtitle-file list returns the original media path unchanged and
performs no external tool invocation. -/
theorem merge_subtitles_empty_noop
    (media_file output_file : String) (run_ok : List String → Bool) :
    merge_subtitles media_file [] output_file run_ok = (media_file, none) := by
  simp [merge_subtitles]

/-- C10: for every input path that does not exist on the filesystem,
`process_download` returns that input path unchanged, performs no external
tool invocation and deletes nothing, for every choice of processing
options. -/
theorem process_download_missing_noop
    (file_path : String) (options : ProcessOptions)
    (fs_exists : String → Bool) (run_ok : List String → Bool)
    (h : fs_exists file_path = false) :
    process_download file_path options fs_exists run_ok = (file_path, none, []) := by
  simp [process_download, h]

/-- Witness for C10 at a concrete missing path. -/
theorem process_download_missing_noop_witness :
    process_download "out/clip.mp4" {} (fun _ => false) (fun _ => true) =
      ("out/clip.mp4", none, []) :=
  process_download_missing_noop "out/clip.mp4" {} (fun _ => false) (fun _ => true) rfl

/-! Section: Theorems for the format-selector claim (C1) -/

/-- C1 counterexample: the selector built for `"720p"` has only three
`/`-joined segments, not the four the claim describes (a four-segment
`/`-joined structure would split into at least four parts), and for the
unrecognized tier `"144p"` the whole-media fallback is bounded by `144`,
not by the claimed `1080`. -/
theorem build_selector_counterexample :
    (strSplitOn (build_selector "720p" none) "/").length = 3 ∧
      build_selector "144p" none =
        "bestvideo[ext=mp4]+bestaudio[ext=m4a]/best[height<=144][ext=mp4]/best" := by
  constructor <;> decide

/-- C1 amended: the selector has three `/`-joined segments — (1) the
tier's video-only selector plus the audio part (the explicit audio format
id when supplied, else `bestaudio[ext=m4a]`), (2) a whole-media
alternative `best[height<=H][ext=mp4]` where `H` is the tier's numeric
prefix when the tier is digits followed by `p` (recognized or not), else
`1080`, and (3) the unconstrained `best`.  Stated on all six documented
tiers, on two unrecognized tiers, and on an arbitrary non-empty explicit
audio format id. -/
theorem build_selector_structure :
    build_selector "highest" none =
        "bestvideo[ext=mp4]+bestaudio[ext=m4a]/best[height<=1080][ext=mp4]/best" ∧
      build_selector "1080p" none =
        "bestvideo[height<=1080][ext=mp4]+bestaudio[ext=m4a]/best[height<=1080][ext=mp4]/best" ∧
      build_selector "720p" none =
        "bestvideo[height<=720][ext=mp4]+bestaudio[ext=m4a]/best[height<=720][ext=mp4]/best" ∧
      build_selector "480p" none =
        "bestvideo[height<=480][ext=mp4]+bestaudio[ext=m4a]/best[height<=480][ext=mp4]/best" ∧
      build_selector "360p" none =
        "bestvideo[height<=360][ext=mp4]+bestaudio[ext=m4a]/best[height<=360][ext=mp4]/best" ∧
      build_selector "240p" none =
        "bestvideo[height<=240][ext=mp4]+bestaudio[ext=m4a]/best[height<=240][ext=mp4]/best" ∧
      build_selector "ultra" none =
        "bestvideo[ext=mp4]+bestaudio[ext=m4a]/best[height<=1080][ext=mp4]/best" ∧
      build_selector "144p" none =
        "bestvideo[ext=mp4]+bestaudio[ext=m4a]/best[height<=144][ext=mp4]/best" ∧
      ∀ aid : String, aid ≠ "" →
        build_selector "720p" (some aid) =
          "bestvideo[height<=720][ext=mp4]+" ++ aid ++
            "/best[height<=720][ext=mp4]/best" := by
  refine ⟨by decide, by decide, by decide, by decide, by decide, by decide, by decide,
    by decide, fun aid haid => ?_⟩
  have h1 : pyTruthy (some aid) = true := by simp [pyTruthy, haid]
  have h2 : format_map_get "720p" = "bestvideo[height<=720][ext=mp4]" := by decide
  have h3 : fallback_height "720p" = "720" := by decide
  simp only [build_selector, h1, if_true, Option.getD_some, h2, h3, String.append_assoc]
  rfl

/-- Witness for C1 at the explicit audio format id `"140"`. -/
theorem build_selector_structure_witness :
    build_selector "720p" (some "140") =
      "bestvideo[height<=720][ext=mp4]+140/best[height<=720][ext=mp4]/best" :=
  build_selector_structure.2.2.2.2.2.2.2.2 "140" (by decide)

/-! Section: Theorems for the orchestration claims (C6, C7) -/

/-- C6 counterexample: with a non-empty requested subtitle list, a primary
video download that fails with a raised download-layer error does NOT run
subtitle acquisition — the orchestrator returns early — refuting the claim
that only non-emptiness of the subtitle list controls this step. -/
theorem subtitles_skipped_on_error_counterexample :
    (download_video_model "720p"
        { output_directory := "out", subtitle_ids := ["en"] }
        (Except.error ()) ["out/x.en.vtt"]).2 = false ∧
      ({ output_directory := "out", subtitle_ids := ["en"] }
        : DownloadOptions).subtitle_ids ≠ [] := by
  constructor <;> decide

/-- C6 amended: subtitle acquisition is invoked iff the configuration's
requested subtitle list is non-empty AND the external library did not
raise a download-layer error.  In particular an extraction that returns no
metadata (a failure without a raised error, so no media path is produced)
still runs subtitle acquisition when subtitle codes were requested. -/
theorem subtitles_invoked_iff :
    ∀ (quality : String) (options : DownloadOptions)
      (extract : Except Unit (Option Info)) (subtitle_result : List String),
      (download_video_model quality options extract subtitle_result).2 = true ↔
        (options.subtitle_ids ≠ [] ∧ ∃ info, extract = Except.ok info) := by
  intro quality options extract subtitle_result
  cases extract with
  | error e =>
    simp [download_video_model]
  | ok info =>
    by_cases hids : options.subtitle_ids = [] <;>
      simp [download_video_model, hids]

/-- C7: whenever the external library raises a download-layer error, both
download paths return an empty result — no media file path and an empty
subtitle-file list — and no subtitle acquisition runs (the error is
absorbed, not propagated: the model is a total function). -/
theorem download_error_empty_result :
    ∀ (quality : String) (options : DownloadOptions) (subtitle_result : List String),
      download_video_model quality options (Except.error ()) subtitle_result =
          ((none, []), false) ∧
        download_audio_model options (Except.error ()) subtitle_result =
          ((none, []), false) := by
  intro quality options subtitle_result
  exact ⟨rfl, rfl⟩

/-! Section: Theorems for the subtitle-acquisition claim (C8) -/

/-- The collection loop returns exactly the expected paths that exist,
in request order. -/
theorem collect_subtitles_eq_filter (output_dir safe_title : String)
    (fs_exists : String → Bool) (langs : List String) :
    collect_subtitles output_dir safe_title fs_exists langs =
      (langs.map (expected_subtitle_path output_dir safe_title)).filter fs_exists := by
  induction langs with
  | nil => rfl
  | cons lang rest ih =>
    simp only [collect_subtitles, List.map_cons, List.filter_cons]
    by_cases h : fs_exists (expected_subtitle_path output_dir safe_title lang) <;>
      simp [h, ih]

/-- C8: for every requested list of subtitle language codes, acquisition
returns exactly those expected per-language `.vtt` paths (sanitized title
plus language code) confirmed to exist on the filesystem after the
external call, in request order; a raised error inside the external call
is absorbed (the empty list is returned, no error reaches the caller); and
a missing file for one language does not abort the others — shown
concretely by requesting `["en", "fr"]` against a filesystem holding only
the `en` file, which yields exactly the `en` path. -/
theorem download_subtitles_exactly_existing :
    (∀ (subtitle_ids : List String) (output_dir : String) (info : Info)
        (fs_exists : String → Bool),
      download_subtitles_model subtitle_ids output_dir
          (Except.ok (some info)) fs_exists =
        (subtitle_ids.map (expected_subtitle_path output_dir
          (filename_safe_title (info.title.getD "video")))).filter fs_exists) ∧
      (∀ (subtitle_ids : List String) (output_dir : String)
          (fs_exists : String → Bool),
        download_subtitles_model subtitle_ids output_dir
          (Except.error ()) fs_exists = []) ∧
      download_subtitles_model ["en", "fr"] "subs"
        (Except.ok (some { title := some "My Video" }))
        (fun p => p == "subs/My Video.en.vtt") = ["subs/My Video.en.vtt"] := by
  refine ⟨fun subtitle_ids output_dir info fs_exists => ?_, fun subtitle_ids => ?_, ?_⟩
  · by_cases hids : subtitle_ids = []
    · simp [download_subtitles_model, hids]
    · simp [download_subtitles_model, hids, collect_subtitles_eq_filter]
  · intro output_dir fs_exists
    by_cases hids : subtitle_ids = [] <;> simp [download_subtitles_model, hids]
  · decide

/-! Section: Theorems for the metadata-cache claim (C2) -/

/-- Looking up a key just stored finds the stored value. -/
theorem assocGet_assocSet_self {α : Type} (l : List (String × α)) (k : String)
    (v : α) : assocGet (assocSet l k v) k = some v := by
  induction l with
  | nil => simp [assocGet, assocSet]
  | cons p rest ih =>
    obtain ⟨k0, v0⟩ := p
    by_cases hk : k0 = k <;> simp [assocGet, assocSet, hk, ih]

/-- C2: for every URL fresh to the cache, after a first lookup at time
`t0` (which extracts once and stores the result with timestamp `t0`), a
second lookup at a time `t1` within the TTL window returns the identical
metadata value and the unchanged state with no extraction call, while a
second lookup at or past TTL expiry performs exactly one re-extraction,
returns its result, and stores it together with the new timestamp `t1`. -/
theorem cache_ttl_behaviour
    (s0 : MetadataServiceState) (extract : String → RawInfo) (t0 t1 : Int)
    (url : String) (hmiss : assocGet s0.video_info_cache url = none) :
    ((get_video_info s0 extract t0 url).2.2 = 1 ∧
        (get_video_info s0 extract t0 url).1 = create_video_info (extract url)) ∧
      (t1 - t0 < s0.cache_ttl →
        get_video_info (get_video_info s0 extract t0 url).2.1 extract t1 url =
          ((get_video_info s0 extract t0 url).1,
            (get_video_info s0 extract t0 url).2.1, 0)) ∧
      (s0.cache_ttl ≤ t1 - t0 →
        (get_video_info (get_video_info s0 extract t0 url).2.1 extract t1 url).2.2
            = 1 ∧
          (get_video_info (get_video_info s0 extract t0 url).2.1 extract t1 url).1
            = create_video_info (extract url) ∧
          assocGet (get_video_info (get_video_info s0 extract t0 url).2.1 extract
              t1 url).2.1.video_info_cache url = some (extract url) ∧
          assocGet (get_video_info (get_video_info s0 extract t0 url).2.1 extract
              t1 url).2.1.cache_timestamps url = some t1) := by
  have hfirst : get_video_info s0 extract t0 url =
      (create_video_info (extract url),
        { s0 with
          video_info_cache := assocSet s0.video_info_cache url (extract url)
          cache_timestamps := assocSet s0.cache_timestamps url t0 }, 1) := by
    simp [get_video_info, hmiss]
  refine ⟨by rw [hfirst]; exact ⟨rfl, rfl⟩, fun hlt => ?_, fun hge => ?_⟩
  · rw [hfirst]
    simp [get_video_info, assocGet_assocSet_self, hlt]
  · rw [hfirst]
    simp [get_video_info, assocGet_assocSet_self, not_lt.mpr hge,
      assocGet_assocSet_self]

/-- Witness for C2: a fresh URL fetched at time `0` is served from the
cache at time `10` (TTL 3600) with the same metadata and no extraction. -/
theorem cache_ttl_behaviour_witness :
    get_video_info (get_video_info {} (fun _ => rawSample) 0 "u").2.1
        (fun _ => rawSample) 10 "u" =
      ((get_video_info {} (fun _ => rawSample) 0 "u").1,
        (get_video_info {} (fun _ => rawSample) 0 "u").2.1, 0) :=
  (cache_ttl_behaviour {} (fun _ => rawSample) 0 10 "u" rfl).2.1 (by decide)

/-! Section: Theorems for the audio-track deduplication claim (C3) -/

/-- The language label of a constructed track is the derived label of its
source format. -/
theorem mk_audio_track_language (f : Fmt) :
    (mk_audio_track f).language = derive_language f := rfl

/-- Tracks produced by the scan loop never carry a lowercase label already
recorded as processed. -/
theorem get_audio_tracks_loop_notin (fmts : List Fmt) :
    ∀ (processed : List String) (t : AudioTrack),
      t ∈ get_audio_tracks_loop fmts processed →
        strToLower t.language ∉ processed := by
  induction fmts with
  | nil =>
    intro processed t ht
    simp [get_audio_tracks_loop] at ht
  | cons f rest ih =>
    intro processed t ht
    by_cases hc : is_audio_candidate f
    · by_cases hmem : strToLower (derive_language f) ∈ processed
      · rw [get_audio_tracks_loop, if_pos hc, if_pos hmem] at ht
        exact ih processed t ht
      · rw [get_audio_tracks_loop, if_neg hmem] at ht
        rw [if_pos hc] at ht
        rcases List.mem_cons.mp ht with rfl | ht'
        · rw [mk_audio_track_language]
          exact hmem
        · intro hp
          exact ih _ t ht' (List.mem_cons_of_mem _ hp)
    · rw [get_audio_tracks_loop, if_neg hc] at ht
      exact ih processed t ht

/-- The scan loop yields pairwise-distinct case-folded language labels. -/
theorem get_audio_tracks_loop_pairwise (fmts : List Fmt) :
    ∀ processed : List String,
      (get_audio_tracks_loop fmts processed).Pairwise
        (fun a b => strToLower a.language ≠ strToLower b.language) := by
  induction fmts with
  | nil => intro processed; simp [get_audio_tracks_loop]
  | cons f rest ih =>
    intro processed
    by_cases hc : is_audio_candidate f
    · by_cases hmem : strToLower (derive_language f) ∈ processed
      · rw [get_audio_tracks_loop, if_pos hc, if_pos hmem]
        exact ih processed
      · rw [get_audio_tracks_loop, if_neg hmem, if_pos hc]
        refine List.pairwise_cons.mpr ⟨fun b hb => ?_, ih _⟩
        have hnb := get_audio_tracks_loop_notin rest _ b hb
        rw [mk_audio_track_language]
        intro hcontra
        exact hnb (hcontra ▸ List.mem_cons_self _ _)
    · rw [get_audio_tracks_loop, if_neg hc]
      exact ih processed

/-- Every track produced by the scan loop is built from the first
candidate format (in original order) whose derived label case-folds to the
track's label. -/
theorem get_audio_tracks_loop_first (fmts : List Fmt) :
    ∀ (processed : List String) (t : AudioTrack),
      t ∈ get_audio_tracks_loop fmts processed →
        ∃ f, (fmts.filter is_audio_candidate).find?
            (fun g => strToLower (derive_language g) == strToLower t.language)
              = some f ∧
          t = mk_audio_track f := by
  induction fmts with
  | nil =>
    intro processed t ht
    simp [get_audio_tracks_loop] at ht
  | cons f rest ih =>
    intro processed t ht
    by_cases hc : is_audio_candidate f
    · by_cases hmem : strToLower (derive_language f) ∈ processed
      · rw [get_audio_tracks_loop, if_pos hc, if_pos hmem] at ht
        obtain ⟨f', hfind, hmk⟩ := ih processed t ht
        have hne : strToLower (derive_language f) ≠ strToLower t.language := by
          intro heq
          exact get_audio_tracks_loop_notin rest processed t ht (heq ▸ hmem)
        refine ⟨f', ?_, hmk⟩
        rw [List.filter_cons_of_pos hc,
          List.find?_cons_of_neg _ (by simpa using hne)]
        exact hfind
      · rw [get_audio_tracks_loop, if_neg hmem, if_pos hc] at ht
        rcases List.mem_cons.mp ht with rfl | ht'
        · refine ⟨f, ?_, rfl⟩
          rw [List.filter_cons_of_pos hc,
            List.find?_cons_of_pos _ (by simp [mk_audio_track_language])]
        · obtain ⟨f', hfind, hmk⟩ := ih _ t ht'
          have hnotin := get_audio_tracks_loop_notin rest _ t ht'
          have hne : strToLower (derive_language f) ≠ strToLower t.language := by
            intro heq
            exact hnotin (heq ▸ List.mem_cons_self _ _)
          refine ⟨f', ?_, hmk⟩
          rw [List.filter_cons_of_pos hc,
            List.find?_cons_of_neg _ (by simpa using hne)]
          exact hfind
    · rw [get_audio_tracks_loop, if_neg hc] at ht
      obtain ⟨f', hfind, hmk⟩ := ih processed t ht
      refine ⟨f', ?_, hmk⟩
      rw [List.filter_cons_of_neg hc]
      exact hfind

/-- C3: in every audio-track list derived from a format list, no two
entries share a case-insensitive language label, and each retained entry
is built from the first raw format (in original order, among audio
candidates) whose derived language label matches the entry's label
case-insensitively — all later formats with a duplicate label are
dropped. -/
theorem audio_tracks_dedup_first_wins :
    (∀ formats : List Fmt,
        (get_audio_tracks formats).Pairwise
          (fun a b => strToLower a.language ≠ strToLower b.language)) ∧
      ∀ (formats : List Fmt) (t : AudioTrack), t ∈ get_audio_tracks formats →
        ∃ f, (formats.filter is_audio_candidate).find?
            (fun g => strToLower (derive_language g) == strToLower t.language)
              = some f ∧
          t = mk_audio_track f :=
  ⟨fun formats => get_audio_tracks_loop_pairwise formats [],
    fun formats t ht => get_audio_tracks_loop_first formats [] t ht⟩

/-- Witness for C3: in a list holding an `"English - original"` format
followed by a lowercase-`"english"` duplicate, the retained track is built
from the first of them. -/
theorem audio_tracks_dedup_first_wins_witness :
    ∃ f, (([fmtEnglish, fmtEnglishDup].filter is_audio_candidate).find?
        (fun g => strToLower (derive_language g) ==
          strToLower (mk_audio_track fmtEnglish).language)) = some f ∧
      mk_audio_track fmtEnglish = mk_audio_track f :=
  audio_tracks_dedup_first_wins.2 [fmtEnglish, fmtEnglishDup]
    (mk_audio_track fmtEnglish) (by decide)

/-! Section: Theorems for the audio-candidate claim (C4) -/

/-- C4 counterexample: a format reporting the video codec `"h264"` (so
"no video codec" fails) but flagged `resolution = "audio only"` IS treated
as an audio-track candidate by the resolution logic — it yields a track —
refuting the claimed equivalence with "no video codec and a non-null audio
codec". -/
theorem audio_candidate_counterexample :
    (get_audio_tracks [fmtOddCandidate]).length = 1 ∧
      ¬ spec_audio_candidate fmtOddCandidate := by
  refine ⟨by decide, fun h => absurd h.1 (by decide)⟩

/-- C4 amended: a format is treated as an audio-track candidate iff
(its `vcodec` field equals the string `"none"` and its `acodec` field
differs from the string `"none"`) or its `resolution` field equals the
string `"audio only"`. -/
theorem audio_candidate_iff :
    ∀ f : Fmt, get_audio_tracks [f] ≠ [] ↔
      ((f.vcodec = some "none" ∧ f.acodec ≠ some "none") ∨
        f.resolution = some "audio only") := by
  intro f
  have hmain : get_audio_tracks [f] ≠ [] ↔ is_audio_candidate f = true := by
    by_cases hc : is_audio_candidate f <;>
      simp [get_audio_tracks, get_audio_tracks_loop, hc]
  rw [hmain]
  simp [is_audio_candidate, Bool.or_eq_true, Bool.and_eq_true, beq_iff_eq,
    bne_iff_ne]

/-! Section: Theorems for the filename-sanitization claim (C5) -/

/-- C5 counterexample: the letter `é` is alphanumeric to the
Unicode-aware sanitizer in the source, which keeps it, while the spec's
character class `[A-Za-z0-9 \-_.]` would replace it with `_`. -/
theorem sanitize_counterexample :
    filename_safe_title "é" ≠ sanitize_class_rule "é" := by decide

/-- C5 amended: on titles made of ASCII characters the sanitizer agrees
exactly with the `[A-Za-z0-9 \-_.]` class rule (everything outside the
class becomes `_`, everything inside is kept); non-ASCII alphanumeric
characters are instead preserved.  The spec's scenario title still follows
the class rule, its only non-ASCII character being the em dash, which is
not alphanumeric. -/
theorem sanitize_ascii_class_rule :
    (∀ title : String, (∀ c ∈ title.data, c.toNat ≤ 127) →
        filename_safe_title title = sanitize_class_rule title) ∧
      filename_safe_title "Official Song (Live) — 2024!" =
        "Official Song _Live_ _ 2024_" := by
  constructor
  · intro title hascii
    unfold filename_safe_title sanitize_class_rule
    congr 1
    apply List.map_congr_left
    intro c hc
    have h127 := hascii c hc
    have halnum : pyIsAlnum c = c.isAlphanum := by
      unfold pyIsAlnum
      simp [h127]
    rw [halnum]
  · decide

/-- Witness for C5 at a concrete ASCII title. -/
theorem sanitize_ascii_class_rule_witness :
    filename_safe_title "My Song (remix).mp4" =
      sanitize_class_rule "My Song (remix).mp4" :=
  sanitize_ascii_class_rule.1 "My Song (remix).mp4" (by decide)

end Ultratube
